import Mathlib

/-!
Verification of the shaderc core spec against a shallow embedding of the
repository's code.

The repository slice under verification contains:
* `libshaderc_util/include/libshaderc_util/file_finder.h` — declaration and
  documented contract of `FileFinder::FindReadableFilepath` (the `.cc` body is
  not part of the slice, so the body is modelled from the spec, faithful to the
  header's documentation);
* `libshaderc/src/shaderc_cpp_test.cc` and the C API header `shaderc.h` —
  the tests and declarations of the compiler/module handle API; the
  implementation files (`shaderc.cc`, `shaderc.hpp`) are likewise absent and
  are modelled from the spec.

The external GLSL-to-SPIR-V backend (glslang) is out of scope for the spec;
its documented behavior on the pinned inputs is captured by the `BackendSpec`
predicate, and a small concrete `modelBackend` witnesses its satisfiability.
-/

namespace Shaderc

/-! ## FileFinder -/

/-- Modelled from the spec: candidate construction inside
`FileFinder::FindReadableFilepath` (file_finder.cc is not in the slice; the
header documents it: an empty search-path element means the filename is tried
as-is; a non-empty element not ending in a slash gets a slash inserted between
it and the filename; otherwise the element is prepended directly). -/
def candidateFor (p filename : String) : String :=
  if p = "" then filename
  else if p.endsWith "/" then p ++ filename
  else p ++ "/" ++ filename

/-- Modelled from the spec: the search loop of
`FileFinder::FindReadableFilepath`.  The read-openable test (`std::fopen`-style
openability) is an external filesystem effect, modelled as the predicate
`readable`.  Elements of the search path are tried in insertion order; the
first candidate passing the test is returned, or the empty string if none
does. -/
def FindReadableFilepath (readable : String → Bool) (searchPath : List String)
    (filename : String) : String :=
  match searchPath with
  | [] => ""
  | p :: rest =>
      let c := candidateFor p filename
      if readable c then c else FindReadableFilepath readable rest filename

/-- The `FileFinder` class state: an ordered, caller-mutable sequence of
search-path prefixes (duplicates allowed). -/
structure FileFinder where
  search_path_ : List String

/-- The mutable accessor `FileFinder::search_path()` read out as a value. -/
def FileFinder.search_path (f : FileFinder) : List String := f.search_path_

/-- Modelled from the spec: the `const` method body as an explicit
state-threading loop, returning the result together with the (unchanged)
object state, so that the frame property is a theorem rather than a
convention. -/
def FileFinder.findLoop (readable : String → Bool) :
    FileFinder → List String → String → String × FileFinder
  | f, [], _ => ("", f)
  | f, p :: rest, filename =>
      let c := candidateFor p filename
      if readable c then (c, f) else FileFinder.findLoop readable f rest filename

/-- `FileFinder::FindReadableFilepath` as a method on the object state. -/
def FileFinder.FindReadableFilepathM (readable : String → Bool) (f : FileFinder)
    (filename : String) : String × FileFinder :=
  FileFinder.findLoop readable f f.search_path_ filename

/-! ## Shader kinds, compile outputs, the backend capability -/

/-- The two shader kinds of the C API enum `shaderc_shader_kind`. -/
inductive ShaderKind
  | vertex
  | fragment
deriving DecidableEq

/-- The content of one compilation result: success flag, SPIR-V payload bytes
(each entry a byte value), diagnostic text.  This is the data owned by a
non-null `shaderc_spv_module_t`. -/
structure CompileOutput where
  success : Bool
  bytes : List Nat
  error_message : String
deriving DecidableEq

/-- The external compiler backend capability (glslang; an external
collaborator, out of the spec's scope): a stateless-per-call function from
source bytes, shader kind and entry-point name to a compilation output.  A
C `(const char*, size)` buffer is its byte content, modelled as the character
list. -/
def Backend : Type := List Char → ShaderKind → String → CompileOutput

/-! ## The C API layer (shaderc.h) -/

/-- Modelled from the spec: `shaderc_compile_into_spv` (shaderc.cc is not in
the slice).  On a valid (non-null) compiler handle it delegates to the backend
capability and wraps the output in a fresh module handle; on an invalid handle
it returns a null module rather than faulting.  The opaque per-handle backend
state is modelled as `Unit`. -/
def shaderc_compile_into_spv (b : Backend) (compiler : Option Unit)
    (source_text : List Char) (shader_kind : ShaderKind)
    (entry_point_name : String) : Option CompileOutput :=
  match compiler with
  | none => none
  | some _ => some (b source_text shader_kind entry_point_name)

/-! ## The C++ wrapper layer (shaderc.hpp) -/

/-- The move-only `shaderc::Compiler` wrapper: holds the underlying compiler
handle, `none` when initialization failed or the wrapper was moved from. -/
structure Compiler where
  compiler_ : Option Unit

/-- `shaderc::Compiler::IsValid()`: true iff the underlying handle is
non-null. -/
def Compiler.IsValid (c : Compiler) : Bool := c.compiler_.isSome

/-- The move-only `shaderc::SpvModule` wrapper: holds the underlying result
handle, `none` for a null module or a moved-from wrapper. -/
structure SpvModule where
  module_ : Option CompileOutput

/-- `shaderc::SpvModule::IsValid()`: true iff the underlying handle is
non-null. -/
def SpvModule.IsValid (m : SpvModule) : Bool := m.module_.isSome

/-- Modelled from the spec: `SpvModule::GetSuccess()` — false on a null
module, otherwise the stored success flag. -/
def SpvModule.GetSuccess (m : SpvModule) : Bool :=
  match m.module_ with
  | none => false
  | some d => d.success

/-- Modelled from the spec: `SpvModule::GetLength()` — 0 on a null module,
otherwise the payload byte length. -/
def SpvModule.GetLength (m : SpvModule) : Nat :=
  match m.module_ with
  | none => 0
  | some d => d.bytes.length

/-- Modelled from the spec: `SpvModule::GetData()` — the empty byte sequence
on a null module, otherwise the payload bytes. -/
def SpvModule.GetData (m : SpvModule) : List Nat :=
  match m.module_ with
  | none => []
  | some d => d.bytes

/-- Modelled from the spec: `SpvModule::GetErrorMessage()` — the empty string
on a null module, otherwise the stored diagnostics. -/
def SpvModule.GetErrorMessage (m : SpvModule) : String :=
  match m.module_ with
  | none => ""
  | some d => d.error_message

/-- Modelled from the spec: the explicit-length overload
`Compiler::CompileGlslToSpv(const char* text, size_t size, kind)`: passes the
buffer (here: its byte content) to `shaderc_compile_into_spv` with entry point
`"main"` and wraps the raw result. -/
def Compiler.CompileGlslToSpvLen (b : Backend) (c : Compiler)
    (source_text : List Char) (shader_kind : ShaderKind) : SpvModule :=
  ⟨shaderc_compile_into_spv b c.compiler_ source_text shader_kind "main"⟩

/-- Modelled from the spec: the length-implied overload
`Compiler::CompileGlslToSpv(const std::string& text, kind)`: forwards the
string's bytes and size to the explicit-length overload. -/
def Compiler.CompileGlslToSpvStr (b : Backend) (c : Compiler)
    (source_text : String) (shader_kind : ShaderKind) : SpvModule :=
  c.CompileGlslToSpvLen b source_text.data shader_kind

/-- Modelled from the spec: move construction/assignment of the `Compiler`
wrapper.  Returns (destination, source-after-move): the destination takes
ownership of the handle, the source's handle becomes null. -/
def Compiler.moveConstruct (a : Compiler) : Compiler × Compiler :=
  ({ compiler_ := a.compiler_ }, { compiler_ := none })

/-- Modelled from the spec: move construction/assignment of the `SpvModule`
wrapper.  Returns (destination, source-after-move). -/
def SpvModule.moveConstruct (a : SpvModule) : SpvModule × SpvModule :=
  ({ module_ := a.module_ }, { module_ := none })

/-! ## Pinned inputs, the SPIR-V magic check, substring containment -/

/-- The minimal valid shader source of the tests: `"void main(){}"`. -/
def kMinimalShaderStr : String := "void main()\x7b\x7d"

/-- The undefined-identifier source of the `ErrorsReported` test:
`"int f(){return wrongname;}"`. -/
def kWrongnameShaderStr : String := "int f()\x7breturn wrongname;\x7d"

/-- `spv::MagicNumber`, the fixed first word of a SPIR-V module. -/
def spvMagicNumber : Nat := 0x07230203

/-- Reading the first four bytes of a byte sequence as one little/host-endian
32-bit word, as the test's `uint32_t*` cast does on the payload (0 when fewer
than four bytes are present). -/
def firstWord : List Nat → Nat
  | b0 :: b1 :: b2 :: b3 :: _ => b0 + 256 * (b1 + 256 * (b2 + 256 * b3))
  | _ => 0

/-- The test helper `CompilesToValidSpv` from shaderc_cpp_test.cc: compile,
fail unless successful, fail when the byte length is below 20, then check the
first 32-bit word against the magic constant. -/
def CompilesToValidSpv (b : Backend) (compiler : Compiler) (shader : String)
    (kind : ShaderKind) : Bool :=
  let result := compiler.CompileGlslToSpvStr b shader kind
  if !result.GetSuccess then false
  else if result.GetLength < 20 then false
  else firstWord result.GetData == spvMagicNumber

/-- Containment of `pat` as a contiguous run inside a character list. -/
def listContainsSub (pat : List Char) : List Char → Bool
  | [] => pat.isEmpty
  | c :: rest => List.isPrefixOf pat (c :: rest) || listContainsSub pat rest

/-- `gtest`'s `HasSubstr`: `pat` occurs contiguously inside `s`. -/
def strContainsSub (s pat : String) : Bool := listContainsSub pat.data s.data

/-! ## The backend contract -/

/-- Modelled from the spec: the behavior the spec pins down for the external
backend capability (out-of-scope glslang) on the documented inputs — empty
source compiles, the minimal shader compiles to a module of at least 20 bytes
starting with the magic word, the `wrongname` source fails with the identifier
propagated verbatim in the diagnostics, and diagnostics are empty exactly when
absent, i.e. on success. -/
structure BackendSpec (b : Backend) : Prop where
  empty_source_succeeds :
    ∀ (k : ShaderKind) (e : String), (b [] k e).success = true
  minimal_shader_succeeds :
    ∀ (k : ShaderKind) (e : String), (b kMinimalShaderStr.data k e).success = true
  minimal_shader_length :
    ∀ (k : ShaderKind) (e : String), 20 ≤ (b kMinimalShaderStr.data k e).bytes.length
  minimal_shader_magic :
    ∀ (k : ShaderKind) (e : String),
      firstWord (b kMinimalShaderStr.data k e).bytes = spvMagicNumber
  wrongname_fails :
    ∀ (e : String), (b kWrongnameShaderStr.data ShaderKind.vertex e).success = false
  wrongname_reported :
    ∀ (e : String),
      listContainsSub "wrongname".data
        (b kWrongnameShaderStr.data ShaderKind.vertex e).error_message.data = true
  error_empty_on_success :
    ∀ (src : List Char) (k : ShaderKind) (e : String),
      (b src k e).success = true → (b src k e).error_message = ""

/-- A 20-byte module whose first host-endian word is the SPIR-V magic. -/
def modelModuleBytes : List Nat :=
  [0x03, 0x02, 0x23, 0x07] ++ List.replicate 16 0

/-- Modelled from the spec: a concrete backend exhibiting exactly the
documented behaviors, used to witness satisfiability of `BackendSpec`. -/
def modelBackend : Backend := fun source _kind _entry =>
  if source = kWrongnameShaderStr.data then
    { success := false, bytes := [],
      error_message := "0:1: error: wrongname : undeclared identifier" }
  else
    { success := true, bytes := modelModuleBytes, error_message := "" }

/-- The model backend satisfies the pinned-down contract. -/
theorem modelBackend_spec : BackendSpec modelBackend := by
  refine ⟨?_, ?_, ?_, ?_, ?_, ?_, ?_⟩
  · intro k e; rfl
  · intro k e; rfl
  · intro k e; show 20 ≤ modelModuleBytes.length; decide
  · intro k e; rfl
  · intro e; rfl
  · intro e
    show listContainsSub "wrongname".data
      "0:1: error: wrongname : undeclared identifier".data = true
    decide
  · intro src k e h
    unfold modelBackend at h ⊢
    by_cases hs : src = kWrongnameShaderStr.data
    · simp [hs] at h
    · simp [hs]

/-! ## Helper lemmas -/

/-- The state-threading loop computes the pure search result and leaves the
object untouched. -/
theorem findLoop_spec (readable : String → Bool) (f : FileFinder)
    (sp : List String) (filename : String) :
    FileFinder.findLoop readable f sp filename
      = (FindReadableFilepath readable sp filename, f) := by
  induction sp with
  | nil => rfl
  | cons p rest ih =>
      by_cases h : readable (candidateFor p filename) <;>
        simp [FileFinder.findLoop, FindReadableFilepath, h, ih]

/-! ## Claim theorems -/

/-- Claim C1: for every search path and every non-empty filename,
`FindReadableFilepath` tries the candidates in insertion order — filename
unchanged for an empty element, element ++ "/" ++ filename for a non-empty
element not ending in a separator, element ++ filename otherwise — returns the
first candidate passing the read-openable test, and returns "" when none
passes; in particular an empty search path returns "" for every filename. -/
theorem find_readable_filepath_first_hit (readable : String → Bool)
    (searchPath : List String) (filename : String) (hf : filename ≠ "") :
    FindReadableFilepath readable searchPath filename
        = ((searchPath.map (fun p => candidateFor p filename)).find?
            (fun c => readable c)).getD ""
    ∧ FindReadableFilepath readable [] filename = ""
    ∧ candidateFor "" filename = filename
    ∧ (∀ p : String, p ≠ "" → p.endsWith "/" = false →
        candidateFor p filename = p ++ "/" ++ filename)
    ∧ (∀ p : String, p ≠ "" → p.endsWith "/" = true →
        candidateFor p filename = p ++ filename) := by
  refine ⟨?_, rfl, rfl, ?_, ?_⟩
  · induction searchPath with
    | nil => rfl
    | cons p rest ih =>
        by_cases h : readable (candidateFor p filename) <;>
          simp [FindReadableFilepath, List.find?_cons, h, ih]
  · intro p hp hs; simp [candidateFor, hp, hs]
  · intro p hp hs; simp [candidateFor, hp, hs]

/-- Witness for C1 at a concrete search path `["", "shaders"]`, filename
`"a.glsl"` and a readability test accepting only `"shaders/a.glsl"`. -/
theorem find_readable_filepath_first_hit_witness :
    ("a.glsl" : String) ≠ ""
    ∧ FindReadableFilepath (fun s => s == "shaders/a.glsl") ["", "shaders"]
        "a.glsl"
      = (((["", "shaders"] : List String).map
            (fun p => candidateFor p "a.glsl")).find?
          (fun c => (fun s => s == "shaders/a.glsl") c)).getD "" :=
  ⟨by decide,
   (find_readable_filepath_first_hit (fun s => s == "shaders/a.glsl")
      ["", "shaders"] "a.glsl" (by decide)).1⟩

/-- Claim C9: `FindReadableFilepath` is a const operation — a lookup leaves
the search path and all other `FileFinder` state unchanged, and the value it
returns is exactly the pure search result over the stored path. -/
theorem find_readable_filepath_const (readable : String → Bool)
    (f : FileFinder) (filename : String) :
    (f.FindReadableFilepathM readable filename).2 = f
    ∧ (f.FindReadableFilepathM readable filename).2.search_path = f.search_path
    ∧ (f.FindReadableFilepathM readable filename).1
        = FindReadableFilepath readable f.search_path_ filename := by
  simp [FileFinder.FindReadableFilepathM, findLoop_spec]

/-- Claim C2: moving a valid wrapper (Compiler or SpvModule) into a new one
leaves the source invalid (`IsValid` false) and the destination valid, and
every later query on the source acts on an invalid object: a compile on a
moved-from Compiler yields a null module, and every accessor of a moved-from
SpvModule returns the invalid defaults. -/
theorem moves_invalidate_source (a : Compiler) (m : SpvModule)
    (ha : a.IsValid = true) (hm : m.IsValid = true) :
    (a.moveConstruct.1.IsValid = true ∧ a.moveConstruct.2.IsValid = false ∧
      ∀ (b : Backend) (src : String) (k : ShaderKind),
        (a.moveConstruct.2.CompileGlslToSpvStr b src k).module_ = none ∧
        (a.moveConstruct.2.CompileGlslToSpvStr b src k).GetSuccess = false ∧
        (a.moveConstruct.2.CompileGlslToSpvStr b src k).GetLength = 0)
    ∧ (m.moveConstruct.1.IsValid = true ∧ m.moveConstruct.2.IsValid = false ∧
       m.moveConstruct.2.GetSuccess = false ∧ m.moveConstruct.2.GetLength = 0 ∧
       m.moveConstruct.2.GetData = [] ∧
       m.moveConstruct.2.GetErrorMessage = "") :=
  ⟨⟨ha, rfl, fun _ _ _ => ⟨rfl, rfl, rfl⟩⟩, ⟨hm, rfl, rfl, rfl, rfl, rfl⟩⟩

/-- Witness for C2 at a concrete valid Compiler and a concrete valid
SpvModule. -/
theorem moves_invalidate_source_witness :
    (Compiler.mk (some ())).moveConstruct.1.IsValid = true
    ∧ (Compiler.mk (some ())).moveConstruct.2.IsValid = false
    ∧ (SpvModule.mk (some ⟨true, [], ""⟩)).moveConstruct.1.IsValid = true
    ∧ (SpvModule.mk (some ⟨true, [], ""⟩)).moveConstruct.2.GetSuccess
        = false :=
  ⟨(moves_invalidate_source (Compiler.mk (some ()))
      (SpvModule.mk (some ⟨true, [], ""⟩)) rfl rfl).1.1,
   (moves_invalidate_source (Compiler.mk (some ()))
      (SpvModule.mk (some ⟨true, [], ""⟩)) rfl rfl).1.2.1,
   (moves_invalidate_source (Compiler.mk (some ()))
      (SpvModule.mk (some ⟨true, [], ""⟩)) rfl rfl).2.1,
   (moves_invalidate_source (Compiler.mk (some ()))
      (SpvModule.mk (some ⟨true, [], ""⟩)) rfl rfl).2.2.2.1⟩

/-- Claim C3: every accessor of a null/invalid SpvModule wrapper is safe and
returns the invalid defaults — success false, length 0, empty data, empty
error message. -/
theorem null_module_accessors (m : SpvModule) (h : m.module_ = none) :
    m.GetSuccess = false ∧ m.GetLength = 0 ∧ m.GetData = [] ∧
    m.GetErrorMessage = "" := by
  rcases m with ⟨mod⟩
  cases mod with
  | none => exact ⟨rfl, rfl, rfl, rfl⟩
  | some d => simp at h

/-- Witness for C3 at the null module wrapper. -/
theorem null_module_accessors_witness :
    (SpvModule.mk none).GetSuccess = false
    ∧ (SpvModule.mk none).GetLength = 0
    ∧ (SpvModule.mk none).GetData = []
    ∧ (SpvModule.mk none).GetErrorMessage = "" :=
  null_module_accessors (SpvModule.mk none) rfl

/-- Claim C5: for byte-identical source buffers, the explicit-length overload
and the length-implied (string) overload of compile yield identical success
flag, identical payload length and bit-identical payload bytes. -/
theorem std_and_cstring_equivalent (b : Backend) (c : Compiler)
    (buf : List Char) (s : String) (h : buf = s.data) (k : ShaderKind) :
    (c.CompileGlslToSpvLen b buf k).GetSuccess
        = (c.CompileGlslToSpvStr b s k).GetSuccess
    ∧ (c.CompileGlslToSpvLen b buf k).GetLength
        = (c.CompileGlslToSpvStr b s k).GetLength
    ∧ (c.CompileGlslToSpvLen b buf k).GetData
        = (c.CompileGlslToSpvStr b s k).GetData := by
  subst h; exact ⟨rfl, rfl, rfl⟩

/-- Witness for C5 at the minimal shader source and the model backend. -/
theorem std_and_cstring_equivalent_witness :
    ((Compiler.mk (some ())).CompileGlslToSpvLen modelBackend
        kMinimalShaderStr.data ShaderKind.fragment).GetData
      = ((Compiler.mk (some ())).CompileGlslToSpvStr modelBackend
          kMinimalShaderStr ShaderKind.fragment).GetData :=
  (std_and_cstring_equivalent modelBackend (Compiler.mk (some ()))
      kMinimalShaderStr.data kMinimalShaderStr rfl ShaderKind.fragment).2.2

/-- Claim C10: compile is deterministic — on a valid handle, two compile
calls with identical source bytes, identical shader kind and identical entry
point name yield the same success flag, the same payload length and identical
payload bytes. -/
theorem compile_deterministic (b : Backend) (c : Compiler)
    (hc : c.IsValid = true) (s1 s2 : List Char) (k1 k2 : ShaderKind)
    (e1 e2 : String) (hs : s1 = s2) (hk : k1 = k2) (he : e1 = e2) :
    (SpvModule.mk (shaderc_compile_into_spv b c.compiler_ s1 k1 e1)).GetSuccess
      = (SpvModule.mk
          (shaderc_compile_into_spv b c.compiler_ s2 k2 e2)).GetSuccess
    ∧ (SpvModule.mk
        (shaderc_compile_into_spv b c.compiler_ s1 k1 e1)).GetLength
      = (SpvModule.mk
          (shaderc_compile_into_spv b c.compiler_ s2 k2 e2)).GetLength
    ∧ (SpvModule.mk (shaderc_compile_into_spv b c.compiler_ s1 k1 e1)).GetData
      = (SpvModule.mk
          (shaderc_compile_into_spv b c.compiler_ s2 k2 e2)).GetData := by
  subst hs; subst hk; subst he; exact ⟨rfl, rfl, rfl⟩

/-- Witness for C10 at the minimal shader, vertex kind, entry "main". -/
theorem compile_deterministic_witness :
    (SpvModule.mk (shaderc_compile_into_spv modelBackend (some ())
        kMinimalShaderStr.data ShaderKind.vertex "main")).GetData
      = (SpvModule.mk (shaderc_compile_into_spv modelBackend (some ())
          kMinimalShaderStr.data ShaderKind.vertex "main")).GetData :=
  (compile_deterministic modelBackend (Compiler.mk (some ())) rfl
      kMinimalShaderStr.data kMinimalShaderStr.data ShaderKind.vertex
      ShaderKind.vertex "main" "main" rfl rfl rfl).2.2

/-- On a valid compiler, the string compile overload wraps exactly the
backend's output for the string's bytes and entry point "main". -/
theorem compileStr_on_valid (b : Backend) (c : Compiler)
    (hc : c.IsValid = true) (s : String) (k : ShaderKind) :
    c.CompileGlslToSpvStr b s k = ⟨some (b s.data k "main")⟩ := by
  rcases c with ⟨cmp⟩
  cases cmp with
  | none => simp [Compiler.IsValid] at hc
  | some u =>
      simp [Compiler.CompileGlslToSpvStr, Compiler.CompileGlslToSpvLen,
        shaderc_compile_into_spv]

/-- Claim C6: on any valid handle and any backend meeting the documented
contract, compiling `"void main(){}"` succeeds for both the vertex and the
fragment kind, the module is at least 20 bytes long, its first 4-byte word is
0x07230203, and the test helper `CompilesToValidSpv` accepts it for both
kinds. -/
theorem minimal_shader_valid_spv (b : Backend) (hb : BackendSpec b)
    (c : Compiler) (hc : c.IsValid = true) :
    CompilesToValidSpv b c kMinimalShaderStr ShaderKind.vertex = true
    ∧ CompilesToValidSpv b c kMinimalShaderStr ShaderKind.fragment = true
    ∧ ∀ (k : ShaderKind),
        (c.CompileGlslToSpvStr b kMinimalShaderStr k).GetSuccess = true
        ∧ 20 ≤ (c.CompileGlslToSpvStr b kMinimalShaderStr k).GetLength
        ∧ firstWord (c.CompileGlslToSpvStr b kMinimalShaderStr k).GetData
            = spvMagicNumber := by
  have key := fun k => compileStr_on_valid b c hc kMinimalShaderStr k
  have hval : ∀ k : ShaderKind,
      CompilesToValidSpv b c kMinimalShaderStr k = true := by
    intro k
    have h20 := hb.minimal_shader_length k "main"
    have hmagic := hb.minimal_shader_magic k "main"
    simp only [CompilesToValidSpv, key k, SpvModule.GetSuccess,
      SpvModule.GetLength, SpvModule.GetData,
      hb.minimal_shader_succeeds k "main"]
    simp [Nat.not_lt.mpr h20, hmagic]
  refine ⟨hval ShaderKind.vertex, hval ShaderKind.fragment, fun k => ?_⟩
  rw [key k]
  exact ⟨hb.minimal_shader_succeeds k "main",
    hb.minimal_shader_length k "main", hb.minimal_shader_magic k "main"⟩

/-- Witness for C6 at the model backend and a concrete valid compiler. -/
theorem minimal_shader_valid_spv_witness :
    CompilesToValidSpv modelBackend (Compiler.mk (some ())) kMinimalShaderStr
      ShaderKind.vertex = true
    ∧ CompilesToValidSpv modelBackend (Compiler.mk (some ())) kMinimalShaderStr
        ShaderKind.fragment = true :=
  ⟨(minimal_shader_valid_spv modelBackend modelBackend_spec
      (Compiler.mk (some ())) rfl).1,
   (minimal_shader_valid_spv modelBackend modelBackend_spec
      (Compiler.mk (some ())) rfl).2.1⟩

/-- Claim C7: on any valid handle and contract-conforming backend, compiling
the source referencing the undefined identifier `wrongname` fails and the
diagnostic string contains the substring "wrongname"; moreover the error
message is non-empty only on failure (it is empty whenever compilation
succeeds). -/
theorem errors_reported (b : Backend) (hb : BackendSpec b) (c : Compiler)
    (hc : c.IsValid = true) :
    (c.CompileGlslToSpvStr b kWrongnameShaderStr
        ShaderKind.vertex).GetSuccess = false
    ∧ strContainsSub
        (c.CompileGlslToSpvStr b kWrongnameShaderStr
          ShaderKind.vertex).GetErrorMessage "wrongname" = true
    ∧ ∀ (src : String) (k : ShaderKind),
        (c.CompileGlslToSpvStr b src k).GetSuccess = true →
        (c.CompileGlslToSpvStr b src k).GetErrorMessage = "" := by
  have key := compileStr_on_valid b c hc kWrongnameShaderStr ShaderKind.vertex
  refine ⟨?_, ?_, ?_⟩
  · rw [key]; exact hb.wrongname_fails "main"
  · rw [key]; exact hb.wrongname_reported "main"
  · intro src k h
    rw [compileStr_on_valid b c hc src k] at h ⊢
    exact hb.error_empty_on_success src.data k "main" h

/-- Witness for C7 at the model backend and a concrete valid compiler. -/
theorem errors_reported_witness :
    ((Compiler.mk (some ())).CompileGlslToSpvStr modelBackend
        kWrongnameShaderStr ShaderKind.vertex).GetSuccess = false
    ∧ strContainsSub
        ((Compiler.mk (some ())).CompileGlslToSpvStr modelBackend
          kWrongnameShaderStr ShaderKind.vertex).GetErrorMessage
        "wrongname" = true :=
  ⟨(errors_reported modelBackend modelBackend_spec
      (Compiler.mk (some ())) rfl).1,
   (errors_reported modelBackend modelBackend_spec
      (Compiler.mk (some ())) rfl).2.1⟩

/-- Claim C8: on any valid handle and contract-conforming backend, compiling
the empty source string succeeds for both the vertex and the fragment shader
kind. -/
theorem empty_string_compiles (b : Backend) (hb : BackendSpec b)
    (c : Compiler) (hc : c.IsValid = true) :
    (c.CompileGlslToSpvStr b "" ShaderKind.vertex).GetSuccess = true
    ∧ (c.CompileGlslToSpvStr b "" ShaderKind.fragment).GetSuccess = true := by
  constructor <;>
    · rw [compileStr_on_valid b c hc]
      exact hb.empty_source_succeeds _ "main"

/-- Witness for C8 at the model backend and a concrete valid compiler. -/
theorem empty_string_compiles_witness :
    ((Compiler.mk (some ())).CompileGlslToSpvStr modelBackend ""
        ShaderKind.vertex).GetSuccess = true
    ∧ ((Compiler.mk (some ())).CompileGlslToSpvStr modelBackend ""
        ShaderKind.fragment).GetSuccess = true :=
  empty_string_compiles modelBackend modelBackend_spec
    (Compiler.mk (some ())) rfl

end Shaderc
